import Mathlib

/-
Verification of the MVar synchronization cell from src/mvar.c (c-utils).

The cell state guarded by the mutex is the `empty` flag together with the
backing storage the caller-supplied accessors copy into and out of.  Each
operation is embedded as a pure function of that state plus explicit
environment inputs standing for the outcomes of the pthread calls:

  - `lockErr`  : the return code of pthread_mutex_lock / pthread_mutex_timedlock
                 (0 on success, an errno otherwise);
  - `held`     : whether pthread_mutex_trylock finds the lock already held
                 (in which case POSIX specifies it returns EBUSY);
  - `waitErr`  : the return code of pthread_cond_timedwait (0 when woken,
                 ETIMEDOUT when the deadline elapsed);
  - `wake`     : the cell state observed when a condition wait returns, i.e.
                 whatever the other threads left behind while this thread was
                 blocked.  It is consulted only on paths that actually wait.

Each operation returns its result code, the cell state at unlock time, the
value copied out (for read/take), and a trace of the observable actions taken
under the lock: accessor invocations (recording the empty flag at the moment
of the call) and condition-variable signals.
-/

namespace CUtils

/-- errno value EBUSY as on Linux; pthread_mutex_trylock returns it on a held
lock, and the try operations return it on an unmet occupancy precondition
(src/mvar.c lines 193, 214, 233). -/
def EBUSY : Int := 16

/-- errno value ETIMEDOUT as on Linux; pthread_mutex_timedlock and
pthread_cond_timedwait return it when the deadline elapses. -/
def ETIMEDOUT : Int := 110

/-- struct timespec, with seconds and nanoseconds modelled as unbounded
integers (no claim depends on time_t / long overflow). -/
structure Timespec where
  tv_sec : Int
  tv_nsec : Int
deriving DecidableEq

/-- timespec_add from src/mvar.c lines 100-106.  C long division truncates
toward zero and C % takes the sign of the dividend, which is exactly
`Int.tdiv` / `Int.tmod`. -/
def timespec_add (already_normalized_timesec : Timespec) (nano_second : Int) :
    Timespec :=
  let ns := already_normalized_timesec.tv_nsec + nano_second
  ⟨already_normalized_timesec.tv_sec + Int.tdiv ns 1000000000,
    Int.tmod ns 1000000000⟩

/-- The absolute deadline each timed operation computes at call entry:
`timespec_add(now, timeout_in_msec * 1000)` (src/mvar.c lines 110-112,
135-137 and 158-160 are identical). -/
def timedDeadline (now : Timespec) (timeout_in_msec : Int) : Timespec :=
  timespec_add now (timeout_in_msec * 1000)

/-- The write/read accessor pair stored in the cell at init time
(write_callback / read_callback in mvar.h).  `write` copies a user value into
the backing storage; `read` copies the backing storage out. -/
structure Accessors (σ α : Type) where
  write : σ → α → σ
  read : σ → α

/-- The mutable cell state guarded by the mutex: the `empty` flag of MVar_abs
plus the backing storage the accessors operate on. -/
structure MVarState (σ : Type) where
  empty : Bool
  store : σ
deriving DecidableEq

/-- The two condition variables of MVar_abs: `putCond` is waited on by
producers (signaled when the cell becomes empty), `takeCond` by readers and
takers (signaled when the cell becomes full). -/
inductive Cond where
  | putCond
  | takeCond
deriving DecidableEq

/-- One observable action performed while holding the lock: an accessor
invocation, recording the value of the `empty` flag at the moment of the
call, or a pthread_cond_signal on one of the two condition variables. -/
inductive Event where
  | writeEv (emptyAt : Bool)
  | readEv (emptyAt : Bool)
  | signal (c : Cond)
deriving DecidableEq

/-- The outcome of one operation: the returned code, the cell state at unlock
time, the trace of accessor calls and signals, and the value copied to the
caller's out parameter (for read/take variants). -/
structure OpResult (σ α : Type) where
  ret : Int
  state : MVarState σ
  trace : List Event
  out : Option α
deriving DecidableEq

/-- initMVar (src/mvar.c lines 33-42): a fresh cell is empty. -/
def initMVar (st : σ) : MVarState σ := ⟨true, st⟩

/-- isEmptyMVar (src/mvar.c lines 44-47). -/
def isEmptyMVar (s : MVarState σ) : Bool := s.empty

/-- putMVar (src/mvar.c lines 49-64).  After a successful lock, the wait on
putCond is guarded by a single if (no re-check loop); the write accessor then
runs unconditionally, the flag is cleared, and takeCond is signaled. -/
def putMVar (acc : Accessors σ α) (lockErr : Int) (wake : MVarState σ)
    (s : MVarState σ) (user_data : α) : OpResult σ α :=
  if lockErr ≠ 0 then ⟨lockErr, s, [], none⟩
  else
    let s1 := if s.empty then s else wake
    ⟨0, ⟨false, acc.write s1.store user_data⟩,
      [Event.writeEv s1.empty, Event.signal Cond.takeCond], none⟩

/-- readMVar (src/mvar.c lines 66-80).  Single-if wait on takeCond, then the
read accessor runs unconditionally; no flag change, no signal. -/
def readMVar (acc : Accessors σ α) (lockErr : Int) (wake : MVarState σ)
    (s : MVarState σ) : OpResult σ α :=
  if lockErr ≠ 0 then ⟨lockErr, s, [], none⟩
  else
    let s1 := if s.empty then wake else s
    ⟨0, s1, [Event.readEv s1.empty], some (acc.read s1.store)⟩

/-- takeMVar (src/mvar.c lines 82-98).  Like readMVar but also sets the flag
back to empty and signals putCond. -/
def takeMVar (acc : Accessors σ α) (lockErr : Int) (wake : MVarState σ)
    (s : MVarState σ) : OpResult σ α :=
  if lockErr ≠ 0 then ⟨lockErr, s, [], none⟩
  else
    let s1 := if s.empty then wake else s
    ⟨0, ⟨true, s1.store⟩,
      [Event.readEv s1.empty, Event.signal Cond.putCond], some (acc.read s1.store)⟩

/-- timedPutMVar (src/mvar.c lines 108-131).  If the timed lock fails its code
is returned unchanged.  If the cell is full, the thread performs one timed
wait on putCond and re-checks the flag once: if the cell is still full it
unlocks and returns the wait's own code `err`; otherwise (and likewise when
the cell was empty at entry) it writes, clears the flag and signals. -/
def timedPutMVar (acc : Accessors σ α) (lockErr waitErr : Int)
    (wake : MVarState σ) (s : MVarState σ) (user_data : α) : OpResult σ α :=
  if lockErr ≠ 0 then ⟨lockErr, s, [], none⟩
  else if ¬s.empty then
    if ¬wake.empty then ⟨waitErr, wake, [], none⟩
    else ⟨0, ⟨false, acc.write wake.store user_data⟩,
      [Event.writeEv wake.empty, Event.signal Cond.takeCond], none⟩
  else ⟨0, ⟨false, acc.write s.store user_data⟩,
    [Event.writeEv s.empty, Event.signal Cond.takeCond], none⟩

/-- timedReadMVar (src/mvar.c lines 133-154).  Symmetric to timedPutMVar on
takeCond; the success path copies the value out without flag change or
signal. -/
def timedReadMVar (acc : Accessors σ α) (lockErr waitErr : Int)
    (wake : MVarState σ) (s : MVarState σ) : OpResult σ α :=
  if lockErr ≠ 0 then ⟨lockErr, s, [], none⟩
  else if s.empty then
    if wake.empty then ⟨waitErr, wake, [], none⟩
    else ⟨0, wake, [Event.readEv wake.empty], some (acc.read wake.store)⟩
  else ⟨0, s, [Event.readEv s.empty], some (acc.read s.store)⟩

/-- timedTakeMVar (src/mvar.c lines 156-179).  Like timedReadMVar but the
success path also sets the flag back to empty and signals putCond. -/
def timedTakeMVar (acc : Accessors σ α) (lockErr waitErr : Int)
    (wake : MVarState σ) (s : MVarState σ) : OpResult σ α :=
  if lockErr ≠ 0 then ⟨lockErr, s, [], none⟩
  else if s.empty then
    if wake.empty then ⟨waitErr, wake, [], none⟩
    else ⟨0, ⟨true, wake.store⟩,
      [Event.readEv wake.empty, Event.signal Cond.putCond], some (acc.read wake.store)⟩
  else ⟨0, ⟨true, s.store⟩,
    [Event.readEv s.empty, Event.signal Cond.putCond], some (acc.read s.store)⟩

/-- tryPutMVar (src/mvar.c lines 181-200).  `held` says whether
pthread_mutex_trylock finds the lock taken, in which case POSIX specifies the
EBUSY return; a full cell is also answered with EBUSY after unlocking. -/
def tryPutMVar (acc : Accessors σ α) (held : Bool) (s : MVarState σ)
    (user_data : α) : OpResult σ α :=
  if held then ⟨EBUSY, s, [], none⟩
  else if ¬s.empty then ⟨EBUSY, s, [], none⟩
  else ⟨0, ⟨false, acc.write s.store user_data⟩,
    [Event.writeEv s.empty, Event.signal Cond.takeCond], none⟩

/-- tryReadMVar (src/mvar.c lines 202-219). -/
def tryReadMVar (acc : Accessors σ α) (held : Bool) (s : MVarState σ) :
    OpResult σ α :=
  if held then ⟨EBUSY, s, [], none⟩
  else if s.empty then ⟨EBUSY, s, [], none⟩
  else ⟨0, s, [Event.readEv s.empty], some (acc.read s.store)⟩

/-- tryTakeMVar (src/mvar.c lines 221-240). -/
def tryTakeMVar (acc : Accessors σ α) (held : Bool) (s : MVarState σ) :
    OpResult σ α :=
  if held then ⟨EBUSY, s, [], none⟩
  else if s.empty then ⟨EBUSY, s, [], none⟩
  else ⟨0, ⟨true, s.store⟩,
    [Event.readEv s.empty, Event.signal Cond.putCond], some (acc.read s.store)⟩

/-- N consecutive uncontended readMVar calls, each starting from the state the
previous one left behind (the wake state `w` is irrelevant on a full cell). -/
def readNMVar (acc : Accessors σ α) (w : MVarState σ) :
    Nat → MVarState σ → List (OpResult σ α)
  | 0, _ => []
  | n + 1, s =>
    let r := readMVar acc 0 w s
    r :: readNMVar acc w n r.state

/-- True when every write-accessor invocation in the trace happened on an
empty cell (the producer precondition). -/
def goodPutEvents (t : List Event) : Bool :=
  t.all fun e =>
    match e with
    | Event.writeEv b => b
    | _ => true

/-- True when every read-accessor invocation in the trace happened on a full
cell (the reader/taker precondition). -/
def goodTakeEvents (t : List Event) : Bool :=
  t.all fun e =>
    match e with
    | Event.readEv b => !b
    | _ => true

/-- Number of pthread_cond_signal calls on condition `c` in a trace. -/
def countSignal (c : Cond) : List Event → Nat
  | [] => 0
  | Event.signal d :: t => (if d = c then 1 else 0) + countSignal c t
  | _ :: t => countSignal c t

/-- A faithful accessor pair over Int-valued storage (the storage simply holds
the last value written), used for concrete instances. -/
def intAcc : Accessors Int Int := ⟨fun _ v => v, fun st => st⟩

/-- C1: the claim says the deadline is call-entry time plus timeout_in_msec
milliseconds, i.e. plus timeout_in_msec * 1000000 nanoseconds.  The code
multiplies timeout_in_msec by 1000 only, so for timeout_in_msec = 1 starting
at time (0, 0) it produces the deadline (0, 1000) — one microsecond — while
one millisecond later is (0, 1000000).  The parameter name timeout_in_msec
shows milliseconds are intended, so this is a slip in the code. -/
theorem timedDeadline_msec_factor_bug :
    timedDeadline ⟨0, 0⟩ 1 = ⟨0, 1000⟩ ∧
    timespec_add ⟨0, 0⟩ (1 * 1000000) = ⟨0, 1000000⟩ ∧
    (⟨0, 1000⟩ : Timespec) ≠ ⟨0, 1000000⟩ := by
  refine ⟨by decide, by decide, by decide⟩

/-- C10: for an already-normalized timespec and a nonnegative nanosecond
increment, timespec_add returns the exact sum as a normalized timespec; and
the guarantee needs the increment to be nonnegative, since a negative
timeoutMillis yields a deadline with a negative tv_nsec (for example
timeout_in_msec = -1 at time (0, 0) gives tv_nsec = -1000). -/
theorem timespec_add_normalizes :
    (∀ (t : Timespec) (n : Int), 0 ≤ t.tv_nsec → t.tv_nsec < 1000000000 →
      0 ≤ n →
      (timespec_add t n).tv_sec * 1000000000 + (timespec_add t n).tv_nsec
          = t.tv_sec * 1000000000 + t.tv_nsec + n
        ∧ 0 ≤ (timespec_add t n).tv_nsec
        ∧ (timespec_add t n).tv_nsec < 1000000000)
    ∧ (timedDeadline ⟨0, 0⟩ (-1)).tv_nsec < 0 := by
  constructor
  · intro t n h0 h1 hn
    have hns : 0 ≤ t.tv_nsec + n := by omega
    simp only [timespec_add]
    rw [Int.tdiv_eq_ediv hns (by decide), Int.tmod_eq_emod hns (by decide)]
    have hdm := Int.ediv_add_emod (t.tv_nsec + n) 1000000000
    have hnn := Int.emod_nonneg (t.tv_nsec + n) (by decide : (1000000000 : Int) ≠ 0)
    have hlt := Int.emod_lt_of_pos (t.tv_nsec + n) (by decide : (0 : Int) < 1000000000)
    refine ⟨by nlinarith [hdm], hnn, hlt⟩
  · decide

/-- C10 witness: the normalization part at the concrete input
t = (5, 999999999), n = 1. -/
theorem timespec_add_normalizes_witness :
    (timespec_add ⟨5, 999999999⟩ 1).tv_sec * 1000000000
          + (timespec_add ⟨5, 999999999⟩ 1).tv_nsec
        = 5 * 1000000000 + 999999999 + 1
      ∧ 0 ≤ (timespec_add ⟨5, 999999999⟩ 1).tv_nsec
      ∧ (timespec_add ⟨5, 999999999⟩ 1).tv_nsec < 1000000000 :=
  timespec_add_normalizes.1 ⟨5, 999999999⟩ 1 (by decide) (by decide) (by decide)

/-- C5: a try operation whose occupancy precondition fails (full cell for
tryPutMVar, empty cell for tryReadMVar/tryTakeMVar) returns EBUSY and leaves
the cell state — flag and stored value — untouched, with no accessor call and
no signal; and when the lock is already held all three return the very same
EBUSY with the state equally untouched, so contention and wrong state are
indistinguishable to the caller. -/
theorem try_busy_on_unmet_precondition (acc : Accessors σ α) (s : MVarState σ)
    (u : α) :
    (s.empty = false → tryPutMVar acc false s u = ⟨EBUSY, s, [], none⟩)
    ∧ (s.empty = true →
        tryReadMVar acc false s = ⟨EBUSY, s, [], none⟩
        ∧ tryTakeMVar acc false s = ⟨EBUSY, s, [], none⟩)
    ∧ tryPutMVar acc true s u = ⟨EBUSY, s, [], none⟩
    ∧ tryReadMVar acc true s = ⟨EBUSY, s, [], none⟩
    ∧ tryTakeMVar acc true s = ⟨EBUSY, s, [], none⟩ := by
  refine ⟨fun h => ?_, fun h => ⟨?_, ?_⟩, rfl, rfl, rfl⟩ <;>
    simp [tryPutMVar, tryReadMVar, tryTakeMVar, h]

/-- C5 witness: tryPutMVar on the full cell (false, 7) and
tryReadMVar/tryTakeMVar on the empty cell (true, 0) all return EBUSY
unchanged, as does tryPutMVar under lock contention. -/
theorem try_busy_on_unmet_precondition_witness :
    tryPutMVar intAcc false ⟨false, 7⟩ 5 = ⟨EBUSY, ⟨false, 7⟩, [], none⟩
    ∧ tryReadMVar intAcc false ⟨true, 0⟩ = ⟨EBUSY, ⟨true, 0⟩, [], none⟩
    ∧ tryTakeMVar intAcc false ⟨true, 0⟩ = ⟨EBUSY, ⟨true, 0⟩, [], none⟩
    ∧ tryPutMVar intAcc true ⟨false, 7⟩ 5 = ⟨EBUSY, ⟨false, 7⟩, [], none⟩ :=
  ⟨(try_busy_on_unmet_precondition intAcc ⟨false, 7⟩ 5).1 rfl,
    ((try_busy_on_unmet_precondition intAcc ⟨true, 0⟩ 5).2.1 rfl).1,
    ((try_busy_on_unmet_precondition intAcc ⟨true, 0⟩ 5).2.1 rfl).2,
    (try_busy_on_unmet_precondition intAcc ⟨false, 7⟩ 5).2.2.1⟩

/-- C6: after any successful put variant the cell is occupied (empty = false);
after any successful take variant it is unoccupied (empty = true); the read
variants never change occupancy, so a read that completed on a full cell
(its read event carries emptyAt = false, or tryReadMVar succeeded) leaves the
flag occupied. -/
theorem occupancy_after_ops (acc : Accessors σ α) (lockErr waitErr : Int)
    (held : Bool) (wake s : MVarState σ) (u : α) :
    ((putMVar acc lockErr wake s u).ret = 0 →
        (putMVar acc lockErr wake s u).state.empty = false)
    ∧ ((timedPutMVar acc lockErr waitErr wake s u).ret = 0 →
        (timedPutMVar acc lockErr waitErr wake s u).state.empty = false)
    ∧ ((tryPutMVar acc held s u).ret = 0 →
        (tryPutMVar acc held s u).state.empty = false)
    ∧ ((takeMVar acc lockErr wake s).ret = 0 →
        (takeMVar acc lockErr wake s).state.empty = true)
    ∧ ((timedTakeMVar acc lockErr waitErr wake s).ret = 0 →
        (timedTakeMVar acc lockErr waitErr wake s).state.empty = true)
    ∧ ((tryTakeMVar acc held s).ret = 0 →
        (tryTakeMVar acc held s).state.empty = true)
    ∧ (∀ b, Event.readEv b ∈ (readMVar acc lockErr wake s).trace →
        (readMVar acc lockErr wake s).state.empty = b)
    ∧ (∀ b, Event.readEv b ∈ (timedReadMVar acc lockErr waitErr wake s).trace →
        (timedReadMVar acc lockErr waitErr wake s).state.empty = b)
    ∧ ((tryReadMVar acc held s).ret = 0 →
        (tryReadMVar acc held s).state = s ∧ s.empty = false) := by
  refine ⟨?_, ?_, ?_, ?_, ?_, ?_, ?_, ?_, ?_⟩ <;>
    by_cases hl : lockErr ≠ 0 <;> by_cases he : s.empty <;>
      by_cases hw : wake.empty <;> by_cases hh : held <;>
        simp [putMVar, timedPutMVar, tryPutMVar, takeMVar, timedTakeMVar,
          tryTakeMVar, readMVar, timedReadMVar, tryReadMVar, EBUSY,
          hl, he, hw, hh]

/-- C6 witness: a successful put on the empty cell (true, 0) leaves it
occupied; a successful take on the full cell (false, 7) leaves it empty; a
timed read whose read event happened on a full cell leaves it occupied. -/
theorem occupancy_after_ops_witness :
    (putMVar intAcc 0 ⟨true, 0⟩ ⟨true, 0⟩ 5).state.empty = false
    ∧ (takeMVar intAcc 0 ⟨true, 0⟩ ⟨false, 7⟩).state.empty = true
    ∧ (timedReadMVar intAcc 0 0 ⟨true, 0⟩ ⟨false, 7⟩).state.empty = false :=
  ⟨(occupancy_after_ops intAcc 0 0 false ⟨true, 0⟩ ⟨true, 0⟩ 5).1 rfl,
    (occupancy_after_ops intAcc 0 0 false ⟨true, 0⟩ ⟨false, 7⟩ 5).2.2.2.1 rfl,
    (occupancy_after_ops intAcc 0 0 false ⟨true, 0⟩ ⟨false, 7⟩
        5).2.2.2.2.2.2.2.1 false (by decide)⟩

/-- C7: on an empty uncontended cell, with an accessor pair that faithfully
copies the payload, putMVar(v) followed by takeMVar succeeds twice, yields
exactly v, and leaves the cell empty. -/
theorem put_take_roundtrip (acc : Accessors σ α) (wake1 wake2 s : MVarState σ)
    (v : α) (hempty : s.empty = true)
    (hacc : acc.read (acc.write s.store v) = v) :
    (putMVar acc 0 wake1 s v).ret = 0
    ∧ (takeMVar acc 0 wake2 (putMVar acc 0 wake1 s v).state).ret = 0
    ∧ (takeMVar acc 0 wake2 (putMVar acc 0 wake1 s v).state).out = some v
    ∧ (takeMVar acc 0 wake2 (putMVar acc 0 wake1 s v).state).state.empty
        = true := by
  simp [putMVar, takeMVar, hempty, hacc]

/-- C7 witness: the round trip at value 42 on the fresh cell (true, 0) with
the faithful Int accessors. -/
theorem put_take_roundtrip_witness :
    (putMVar intAcc 0 ⟨true, 0⟩ ⟨true, 0⟩ 42).ret = 0
    ∧ (takeMVar intAcc 0 ⟨true, 0⟩
        (putMVar intAcc 0 ⟨true, 0⟩ ⟨true, 0⟩ 42).state).ret = 0
    ∧ (takeMVar intAcc 0 ⟨true, 0⟩
        (putMVar intAcc 0 ⟨true, 0⟩ ⟨true, 0⟩ 42).state).out = some 42
    ∧ (takeMVar intAcc 0 ⟨true, 0⟩
        (putMVar intAcc 0 ⟨true, 0⟩ ⟨true, 0⟩ 42).state).state.empty = true :=
  put_take_roundtrip intAcc ⟨true, 0⟩ ⟨true, 0⟩ ⟨true, 0⟩ 42 rfl rfl

/-- C8: N consecutive readMVar calls on a full cell with no intervening take
all return code 0 and the same stored value, and every intermediate state is
still the original full cell: the whole run equals N copies of one successful
read result. -/
theorem readN_idempotent (acc : Accessors σ α) (w s : MVarState σ) (n : Nat)
    (hfull : s.empty = false) :
    readNMVar acc w n s
      = List.replicate n ⟨0, s, [Event.readEv false], some (acc.read s.store)⟩ := by
  have hr : readMVar acc 0 w s
      = ⟨0, s, [Event.readEv false], some (acc.read s.store)⟩ := by
    simp [readMVar, hfull]
  induction n with
  | zero => rfl
  | succ n ih => simp [readNMVar, hr, ih, List.replicate]

/-- C8 witness: three consecutive reads of the full cell (false, 7) each
return code 0 and value 7 and leave the cell unchanged. -/
theorem readN_idempotent_witness :
    readNMVar intAcc ⟨true, 0⟩ 3 ⟨false, 7⟩
      = List.replicate 3 ⟨0, ⟨false, 7⟩, [Event.readEv false], some 7⟩ :=
  readN_idempotent intAcc ⟨true, 0⟩ ⟨false, 7⟩ 3 rfl

/-- C2 counterexample: timedTakeMVar on an empty cell whose timed wait ends
with return code 0 (a wakeup without the cell having become full) and whose
final check still finds the cell empty returns code 0 — the wait's own code —
not the timeout error, contradicting the claim that the timeout error is
returned whenever the final check shows the precondition unmet. -/
theorem timed_last_look_cex :
    (timedTakeMVar intAcc 0 0 (⟨true, 0⟩ : MVarState Int) ⟨true, 0⟩).ret = 0
    ∧ (timedTakeMVar intAcc 0 0 (⟨true, 0⟩ : MVarState Int) ⟨true, 0⟩).trace = []
    ∧ (0 : Int) ≠ ETIMEDOUT := by
  refine ⟨by decide, by decide, by decide⟩

/-- C2 (amended): after a timed operation's condition wait ends, the
occupancy flag is re-checked once; if the precondition now holds the
operation completes successfully (code 0 after the copy, the flag update and
signal where the operation performs them), and if it is still unmet the
operation unlocks and returns the code the condition wait itself returned —
the timeout error exactly when the wait timed out, but code 0 when the wait
was woken without the precondition holding. -/
theorem timed_last_look (acc : Accessors σ α) (waitErr : Int)
    (wake s : MVarState σ) (u : α) :
    (s.empty = false →
      (wake.empty = true →
        timedPutMVar acc 0 waitErr wake s u
          = ⟨0, ⟨false, acc.write wake.store u⟩,
              [Event.writeEv true, Event.signal Cond.takeCond], none⟩)
      ∧ (wake.empty = false →
        timedPutMVar acc 0 waitErr wake s u = ⟨waitErr, wake, [], none⟩))
    ∧ (s.empty = true →
      (wake.empty = false →
        timedReadMVar acc 0 waitErr wake s
          = ⟨0, wake, [Event.readEv false], some (acc.read wake.store)⟩
        ∧ timedTakeMVar acc 0 waitErr wake s
          = ⟨0, ⟨true, wake.store⟩,
              [Event.readEv false, Event.signal Cond.putCond],
              some (acc.read wake.store)⟩)
      ∧ (wake.empty = true →
        timedReadMVar acc 0 waitErr wake s = ⟨waitErr, wake, [], none⟩
        ∧ timedTakeMVar acc 0 waitErr wake s = ⟨waitErr, wake, [], none⟩)) := by
  refine ⟨fun he => ⟨fun hw => ?_, fun hw => ?_⟩,
    fun he => ⟨fun hw => ⟨?_, ?_⟩, fun hw => ⟨?_, ?_⟩⟩⟩ <;>
    simp_all [timedPutMVar, timedReadMVar, timedTakeMVar]

/-- C2 witness: a timed put whose wait ends with the cell drained completes
with code 0, write and signal; a timed take whose wait timed out with the
cell still empty returns ETIMEDOUT having done nothing. -/
theorem timed_last_look_witness :
    timedPutMVar intAcc 0 ETIMEDOUT ⟨true, 0⟩ ⟨false, 7⟩ 5
      = ⟨0, ⟨false, 5⟩, [Event.writeEv true, Event.signal Cond.takeCond], none⟩
    ∧ timedTakeMVar intAcc 0 ETIMEDOUT (⟨true, 0⟩ : MVarState Int) ⟨true, 0⟩
      = ⟨ETIMEDOUT, ⟨true, 0⟩, [], none⟩ :=
  ⟨((timed_last_look intAcc ETIMEDOUT ⟨true, 0⟩ ⟨false, 7⟩ 5).1 rfl).1 rfl,
    (((timed_last_look intAcc ETIMEDOUT ⟨true, 0⟩ ⟨true, 0⟩ 5).2 rfl).2 rfl).2⟩

/-- C3 counterexample: with the cell full at entry and the single wakeup
delivering a still-full cell (a spurious wakeup, or a competing producer
having refilled the slot first), putMVar runs the write accessor on an
occupied cell and still returns 0 — the wait is guarded by a single if and
the flag is never re-checked after the wakeup, contradicting the claim that
the write only ever happens on an unoccupied cell. -/
theorem accessor_preconditions_cex :
    goodPutEvents (putMVar intAcc 0 ⟨false, 9⟩ ⟨false, 7⟩ 5).trace = false
    ∧ (putMVar intAcc 0 ⟨false, 9⟩ ⟨false, 7⟩ 5).ret = 0 := by
  refine ⟨by decide, by decide⟩

/-- C3 (amended): provided every wakeup from a condition wait is delivered
with the awaited predicate holding (the single-waiter, no-spurious-wakeup
regime the single-if wait assumes), putMVar invokes the write accessor only
on an unoccupied cell and readMVar/takeMVar invoke the read accessor only on
an occupied cell, however the wait went; without that assumption the code
does not re-check the flag after its one wakeup. -/
theorem accessor_preconditions_single_waiter (acc : Accessors σ α)
    (lockErr : Int) (wake s : MVarState σ) (u : α) :
    (wake.empty = true →
      goodPutEvents (putMVar acc lockErr wake s u).trace = true)
    ∧ (wake.empty = false →
      goodTakeEvents (readMVar acc lockErr wake s).trace = true
      ∧ goodTakeEvents (takeMVar acc lockErr wake s).trace = true) := by
  refine ⟨fun hw => ?_, fun hw => ⟨?_, ?_⟩⟩ <;>
    by_cases hl : lockErr ≠ 0 <;> by_cases he : s.empty <;>
      simp_all [putMVar, readMVar, takeMVar, goodPutEvents, goodTakeEvents]

/-- C3 witness: a put whose wakeup delivers an emptied cell writes on an
empty cell only, and a take whose wakeup delivers a filled cell reads on a
full cell only. -/
theorem accessor_preconditions_single_waiter_witness :
    goodPutEvents (putMVar intAcc 0 ⟨true, 0⟩ ⟨false, 7⟩ 5).trace = true
    ∧ goodTakeEvents (takeMVar intAcc 0 ⟨false, 3⟩ ⟨true, 0⟩).trace = true :=
  ⟨(accessor_preconditions_single_waiter intAcc 0 ⟨true, 0⟩ ⟨false, 7⟩ 5).1 rfl,
    ((accessor_preconditions_single_waiter intAcc 0 ⟨false, 3⟩ ⟨true, 0⟩ 5).2
        rfl).2⟩

/-- The result r of a timed operation entered at state s with wake state
`wake` performed no state change of its own: no accessor invocation and no
signal (empty trace), no value copied out, the occupancy flag equal to its
call-entry value, and a final state it merely inherited (the entry state, or
the state other threads left behind during the wait — exactly the entry
state whenever the environment was quiescent). -/
def noMutation (s wake : MVarState σ) (r : OpResult σ α) : Prop :=
  r.trace = [] ∧ r.out = none ∧ r.state.empty = s.empty
    ∧ (r.state = s ∨ r.state = wake) ∧ (wake = s → r.state = s)

/-- C4: whenever a timed operation returns the timeout error, it has mutated
nothing: the occupied flag still has its call-entry value, no accessor ran
(so the payload was not overwritten and nothing was copied out), and neither
condition variable was signaled. -/
theorem timed_timeout_no_mutation (acc : Accessors σ α) (lockErr waitErr : Int)
    (wake s : MVarState σ) (u : α) :
    ((timedPutMVar acc lockErr waitErr wake s u).ret = ETIMEDOUT →
        noMutation s wake (timedPutMVar acc lockErr waitErr wake s u))
    ∧ ((timedReadMVar acc lockErr waitErr wake s).ret = ETIMEDOUT →
        noMutation s wake (timedReadMVar acc lockErr waitErr wake s))
    ∧ ((timedTakeMVar acc lockErr waitErr wake s).ret = ETIMEDOUT →
        noMutation s wake (timedTakeMVar acc lockErr waitErr wake s)) := by
  refine ⟨fun h => ?_, fun h => ?_, fun h => ?_⟩ <;>
    by_cases hl : lockErr ≠ 0 <;> by_cases he : s.empty <;>
      by_cases hw : wake.empty <;>
        simp_all [timedPutMVar, timedReadMVar, timedTakeMVar, noMutation,
          ETIMEDOUT]

/-- C4 witness: a timed take whose timed lock acquisition itself fails with
ETIMEDOUT leaves the entry state (true, 0) untouched and performs nothing. -/
theorem timed_timeout_no_mutation_witness :
    (timedTakeMVar intAcc ETIMEDOUT 0 (⟨true, 9⟩ : MVarState Int) ⟨true, 0⟩).trace = []
    ∧ (timedTakeMVar intAcc ETIMEDOUT 0 (⟨true, 9⟩ : MVarState Int) ⟨true, 0⟩).out = none
    ∧ (timedTakeMVar intAcc ETIMEDOUT 0 (⟨true, 9⟩ : MVarState Int) ⟨true, 0⟩).state
        = ⟨true, 0⟩ := by
  have h := (timed_timeout_no_mutation intAcc ETIMEDOUT 0
      (⟨true, 9⟩ : MVarState Int) ⟨true, 0⟩ 5).2.2 (by decide)
  refine ⟨h.1, h.2.1, ?_⟩
  rcases h.2.2.2.1 with h1 | h1
  · exact h1
  · exact absurd h1 (by decide)

/-- C9 counterexample: a timedPutMVar whose wait was woken with the cell
still full returns the success code 0 yet signals becameFull (takeCond) zero
times, contradicting the claim that every producer operation returning
success signals it exactly once. -/
theorem signal_discipline_cex :
    (timedPutMVar intAcc 0 0 (⟨false, 9⟩ : MVarState Int) ⟨false, 7⟩ 5).ret = 0
    ∧ countSignal Cond.takeCond
        (timedPutMVar intAcc 0 0 (⟨false, 9⟩ : MVarState Int) ⟨false, 7⟩ 5).trace
      = 0 := by
  refine ⟨by decide, by decide⟩

/-- C9 (amended): every producer operation that actually performs its write
signals becameFull (takeCond) exactly once and becameEmpty (putCond) never;
every consuming operation that actually performs its take signals putCond
exactly once and takeCond never; the read variants signal neither condition
on any path.  The timed variants can return the success code 0 without
performing the operation (wait woken, precondition unmet at the final
check), and such a call signals nothing. -/
theorem signal_discipline (acc : Accessors σ α) (lockErr waitErr : Int)
    (held : Bool) (wake s : MVarState σ) (u : α) :
    ((∃ b, Event.writeEv b ∈ (putMVar acc lockErr wake s u).trace) →
        countSignal Cond.takeCond (putMVar acc lockErr wake s u).trace = 1
        ∧ countSignal Cond.putCond (putMVar acc lockErr wake s u).trace = 0)
    ∧ ((∃ b, Event.writeEv b ∈ (timedPutMVar acc lockErr waitErr wake s u).trace) →
        countSignal Cond.takeCond (timedPutMVar acc lockErr waitErr wake s u).trace = 1
        ∧ countSignal Cond.putCond (timedPutMVar acc lockErr waitErr wake s u).trace = 0)
    ∧ ((∃ b, Event.writeEv b ∈ (tryPutMVar acc held s u).trace) →
        countSignal Cond.takeCond (tryPutMVar acc held s u).trace = 1
        ∧ countSignal Cond.putCond (tryPutMVar acc held s u).trace = 0)
    ∧ ((∃ b, Event.readEv b ∈ (takeMVar acc lockErr wake s).trace) →
        countSignal Cond.putCond (takeMVar acc lockErr wake s).trace = 1
        ∧ countSignal Cond.takeCond (takeMVar acc lockErr wake s).trace = 0)
    ∧ ((∃ b, Event.readEv b ∈ (timedTakeMVar acc lockErr waitErr wake s).trace) →
        countSignal Cond.putCond (timedTakeMVar acc lockErr waitErr wake s).trace = 1
        ∧ countSignal Cond.takeCond (timedTakeMVar acc lockErr waitErr wake s).trace = 0)
    ∧ ((∃ b, Event.readEv b ∈ (tryTakeMVar acc held s).trace) →
        countSignal Cond.putCond (tryTakeMVar acc held s).trace = 1
        ∧ countSignal Cond.takeCond (tryTakeMVar acc held s).trace = 0)
    ∧ (countSignal Cond.putCond (readMVar acc lockErr wake s).trace = 0
        ∧ countSignal Cond.takeCond (readMVar acc lockErr wake s).trace = 0)
    ∧ (countSignal Cond.putCond (timedReadMVar acc lockErr waitErr wake s).trace = 0
        ∧ countSignal Cond.takeCond (timedReadMVar acc lockErr waitErr wake s).trace = 0)
    ∧ (countSignal Cond.putCond (tryReadMVar acc held s).trace = 0
        ∧ countSignal Cond.takeCond (tryReadMVar acc held s).trace = 0) := by
  refine ⟨?_, ?_, ?_, ?_, ?_, ?_, ?_, ?_, ?_⟩ <;>
    by_cases hl : lockErr ≠ 0 <;> by_cases he : s.empty <;>
      by_cases hw : wake.empty <;> by_cases hh : held <;>
        simp [putMVar, timedPutMVar, tryPutMVar, takeMVar, timedTakeMVar,
          tryTakeMVar, readMVar, timedReadMVar, tryReadMVar, countSignal,
          hl, he, hw, hh]

/-- C9 witness: a successful blocking put signals takeCond exactly once and
putCond never; a successful blocking take signals putCond exactly once. -/
theorem signal_discipline_witness :
    countSignal Cond.takeCond (putMVar intAcc 0 ⟨true, 0⟩ ⟨true, 0⟩ 5).trace = 1
    ∧ countSignal Cond.putCond (putMVar intAcc 0 ⟨true, 0⟩ ⟨true, 0⟩ 5).trace = 0
    ∧ countSignal Cond.putCond (takeMVar intAcc 0 ⟨true, 0⟩ ⟨false, 7⟩).trace = 1 :=
  ⟨((signal_discipline intAcc 0 0 false ⟨true, 0⟩ ⟨true, 0⟩ 5).1
      ⟨true, by decide⟩).1,
    ((signal_discipline intAcc 0 0 false ⟨true, 0⟩ ⟨true, 0⟩ 5).1
      ⟨true, by decide⟩).2,
    ((signal_discipline intAcc 0 0 false ⟨true, 0⟩ ⟨false, 7⟩ 5).2.2.2.1
      ⟨false, by decide⟩).1⟩

end CUtils
